import Mathlib

/-!
A shallow embedding of the RBAC REST backend (`backend/server.py`): user
registration/login, per-user CRUD over tasks and notes, and admin user
management. MongoDB collections are modelled as Lean lists of documents,
each HTTP handler as a function from the database state (plus the
request's inputs) to an `Except` value carrying either an HTTP-style
error (status code and detail string) or the success payload together
with the new database state. External collaborators are modelled by
executable stand-ins: bcrypt hashing (passlib) by a salted string
transform, JWT decoding by a `TokenResult` that is either expired,
invalid, or a decoded payload, and Mongo ObjectId generation by an id
string supplied by the caller. Wall-clock time is a `Nat` parameter.
-/

deriving instance DecidableEq for Except

namespace RBAC

/-- An HTTP-style error: status code and detail message, as raised by
`HTTPException(status_code=..., detail=...)` in the source. -/
structure Err where
  status : Nat
  detail : String
  deriving Repr, DecidableEq

/-- A user (or admin) document as stored in the `users` / `admins`
collections.  `_id` is the ObjectId rendered as its 24-hex-digit string
(the source converts with `str(...)` wherever the id is compared or
returned). `created_at` is a timestamp. -/
structure UserDoc where
  _id : String
  email : String
  name : String
  password : String
  role : String
  created_at : Nat
  deriving Repr, DecidableEq

/-- A task document in the `tasks` collection (`TaskResponse` fields).
`status` and `priority` are the enum values serialized as strings. -/
structure TaskDoc where
  _id : String
  title : String
  description : String
  status : String
  priority : String
  user_id : String
  created_at : Nat
  updated_at : Nat
  deriving Repr, DecidableEq

/-- A note document in the `notes` collection (`NoteResponse` fields). -/
structure NoteDoc where
  _id : String
  title : String
  content : String
  tags : List String
  user_id : String
  created_at : Nat
  updated_at : Nat
  deriving Repr, DecidableEq

/-- The whole database `Assignment`: the four collections the server
touches. -/
structure DB where
  users : List UserDoc
  admins : List UserDoc
  tasks : List TaskDoc
  notes : List NoteDoc
  deriving Repr, DecidableEq

/-- The decoded JWT payload: the `email` and `role` claims, each possibly
absent (`payload.get(...)` returns `None` for a missing key). -/
structure TokenPayload where
  email : Option String := none
  role : Option String := none
  deriving Repr, DecidableEq

/-- Outcome of `jwt.decode` on a presented bearer token, the external
JWT library's verdict: expired signature, invalid token, or a decoded
payload. -/
inductive TokenResult where
  | expired
  | invalid
  | payload (p : TokenPayload)
  deriving Repr, DecidableEq

/-- The resolved caller identity returned by `get_current_user`. -/
structure Identity where
  email : String
  role : String
  user_id : String
  deriving Repr, DecidableEq

/-- `UserCreate` request body for `POST /auth/register`. -/
structure UserCreate where
  email : String
  password : String
  name : String
  deriving Repr, DecidableEq

/-- `UserLogin` request body for `POST /auth/login`. -/
structure UserLogin where
  email : String
  password : String
  deriving Repr, DecidableEq

/-- `UserUpdate` request body for `PUT /profile`; `none` means the field
was not supplied. -/
structure UserUpdate where
  name : Option String := none
  email : Option String := none
  deriving Repr, DecidableEq

/-- `UserResponse` as shaped by the handlers. -/
structure UserResponse where
  id : String
  email : String
  name : String
  role : String
  created_at : Nat
  deriving Repr, DecidableEq

/-- The `Token` response of register/login: the issued token (modelled by
its payload), the token type, and the user representation. -/
structure Token where
  access_token : TokenPayload
  token_type : String
  user : UserResponse
  deriving Repr, DecidableEq

/-- `TaskCreate` body; `status`/`priority` carry their Pydantic defaults
when not supplied. -/
structure TaskCreate where
  title : String
  description : String
  status : String := "todo"
  priority : String := "medium"
  deriving Repr, DecidableEq

/-- `TaskUpdate` body; `none` means the field was not supplied
(`model_dump(exclude_unset=True)` drops it). -/
structure TaskUpdate where
  title : Option String := none
  description : Option String := none
  status : Option String := none
  priority : Option String := none
  deriving Repr, DecidableEq

/-- `NoteCreate` body. -/
structure NoteCreate where
  title : String
  content : String
  tags : List String := []
  deriving Repr, DecidableEq

/-- `NoteUpdate` body; `none` means the field was not supplied. -/
structure NoteUpdate where
  title : Option String := none
  content : Option String := none
  tags : Option (List String) := none
  deriving Repr, DecidableEq

/-- Replace the first element satisfying `p` by its image under `f`
(Mongo `update_one` applied to a list-modelled collection). -/
def updateFirst (p : α → Bool) (f : α → α) : List α → List α
  | [] => []
  | x :: xs => if p x then f x :: xs else x :: updateFirst p f xs

/-- Remove the first element satisfying `p` (Mongo `delete_one`). -/
def eraseFirst (p : α → Bool) : List α → List α
  | [] => []
  | x :: xs => if p x then xs else x :: eraseFirst p xs

/-- `pwd_context.hash` (bcrypt via passlib, an external collaborator):
modelled as an executable salted transform whose output is never the
plaintext input; `salt` stands for the per-call random salt. -/
def hash_password (salt : Nat) (password : String) : String :=
  "$2b$12$" ++ toString salt ++ "$" ++ password

/-- `pwd_context.verify` (bcrypt via passlib): accepts exactly the
strings produced by `hash_password` on the same plaintext. -/
def verify_password (plain : String) (hashed : String) : Bool :=
  ("$2b$12$".toList.isPrefixOf hashed.toList)
    && (("$" ++ plain).toList.isSuffixOf hashed.toList)

/-- Python truthiness of an optional string (`if not email` is taken for
`None` and for the empty string). -/
def isTruthy : Option String → Bool
  | none => false
  | some s => s != ""

/-- `bson.ObjectId.is_valid` on a string: exactly 24 hexadecimal
digits (`bytes.fromhex` accepts both cases). -/
def isValidObjectId (s : String) : Bool :=
  s.length == 24 && s.toList.all (fun c =>
    c.isDigit || ('a' ≤ c && c ≤ 'f') || ('A' ≤ c && c ≤ 'F'))

/-- Lowercase a hexadecimal digit: `bytes.fromhex` treats uppercase and
lowercase alike, and `ObjectId` keeps only the parsed bytes. -/
def normalizeHexChar : Char → Char
  | 'A' => 'a'
  | 'B' => 'b'
  | 'C' => 'c'
  | 'D' => 'd'
  | 'E' => 'e'
  | 'F' => 'f'
  | c => c

/-- The canonical (lowercase) form of a hex id string — the string
`str(ObjectId(s))` yields for a well-formed `s`. Two well-formed id
strings denote the same ObjectId exactly when their canonical forms are
equal, so an `ObjectId`-valued Mongo filter is modelled as equality of
canonical forms (stored `_id` fields are canonical, being
Mongo-generated). -/
def normalizeHex (s : String) : String :=
  String.mk (s.toList.map normalizeHexChar)

/-- `validate_object_id`: rejects falsy or placeholder ids with
400 "Invalid ID provided", malformed ids with 400 "Invalid ID format",
and otherwise returns `ObjectId(id)` — modelled by the id's canonical
lowercase string, since ObjectId parsing is case-insensitive. -/
def validate_object_id (id : String) : Except Err String :=
  if id = "" ∨ id = "undefined" then .error ⟨400, "Invalid ID provided"⟩
  else if isValidObjectId id then .ok (normalizeHex id)
  else .error ⟨400, "Invalid ID format"⟩

/-- `decode_token`: maps the JWT library's verdict to the payload or a
401 error, as in the source's try/except. -/
def decode_token : TokenResult → Except Err TokenPayload
  | .expired => .error ⟨401, "Token expired"⟩
  | .invalid => .error ⟨401, "Invalid token"⟩
  | .payload p => .ok p

/-- The body of `get_current_user` before its catch-all `except` clause:
decode the token, require truthy `email` and `role` claims, select the
collection by role (`admins` for `"admin"`, else `users`), and look the
account up by email. -/
def get_current_user_inner (db : DB) (tok : TokenResult) : Except Err Identity :=
  match decode_token tok with
  | .error e => .error e
  | .ok payload =>
    if isTruthy payload.email && isTruthy payload.role then
      let email := payload.email.getD ""
      let role := payload.role.getD ""
      let collection := if role = "admin" then db.admins else db.users
      match collection.find? (fun u => u.email == email) with
      | none => .error ⟨401, "User not found"⟩
      | some user => .ok ⟨user.email, role, user._id⟩
    else .error ⟨401, "Invalid token payload"⟩

/-- `get_current_user`: the source wraps its whole body in
`try/except Exception`, so every failure (including the inner
`HTTPException`s) surfaces as 401 "Authentication failed". -/
def get_current_user (db : DB) (tok : TokenResult) : Except Err Identity :=
  match get_current_user_inner db tok with
  | .error _ => .error ⟨401, "Authentication failed"⟩
  | .ok ident => .ok ident

/-- `POST /auth/register`. `new_id` is the ObjectId Mongo assigns to the
inserted document, `salt` the bcrypt salt drawn for this call, `now` the
current time. -/
def register (db : DB) (user_data : UserCreate) (new_id : String)
    (salt : Nat) (now : Nat) : Except Err (DB × Token) :=
  match db.users.find? (fun u => u.email == user_data.email) with
  | some _ => .error ⟨400, "Email already registered"⟩
  | none =>
    let doc : UserDoc :=
      { _id := new_id, email := user_data.email, name := user_data.name,
        password := hash_password salt user_data.password,
        role := "user", created_at := now }
    let db' : DB := { db with users := db.users ++ [doc] }
    let tok : TokenPayload := { email := some doc.email, role := some "user" }
    .ok (db', { access_token := tok, token_type := "bearer",
                user := { id := doc._id, email := doc.email, name := doc.name,
                          role := "user", created_at := now } })

/-- `POST /auth/login`: look the email up in `users`, falling back to
`admins`; admins are compared against the stored plaintext password,
regular users via bcrypt verify. All failures are
401 "Invalid credentials". -/
def login (db : DB) (user_data : UserLogin) : Except Err Token :=
  match (db.users.find? (fun u => u.email == user_data.email)).orElse
      (fun _ => db.admins.find? (fun u => u.email == user_data.email)) with
  | none => .error ⟨401, "Invalid credentials"⟩
  | some user =>
    let tok : Token :=
      { access_token := { email := some user.email, role := some user.role },
        token_type := "bearer",
        user := { id := user._id, email := user.email, name := user.name,
                  role := user.role, created_at := user.created_at } }
    if user.role = "admin" then
      if user_data.password ≠ user.password then
        .error ⟨401, "Invalid credentials"⟩
      else .ok tok
    else
      if verify_password user_data.password user.password then .ok tok
      else .error ⟨401, "Invalid credentials"⟩

/-- `GET /tasks/{task_id}`: validate the id, then look the task up with
a filter on both `_id` and the caller's `user_id`; a missing or
not-owned task is 404 "Task not found". -/
def get_task (db : DB) (current_user : Identity) (task_id : String) :
    Except Err TaskDoc :=
  match validate_object_id task_id with
  | .error e => .error e
  | .ok obj_id =>
    match db.tasks.find? (fun t => t._id == obj_id
        && t.user_id == current_user.user_id) with
    | none => .error ⟨404, "Task not found"⟩
    | some task => .ok task

/-- `POST /tasks`: insert a document carrying the caller's `user_id` and
fresh timestamps; `new_id` is the ObjectId Mongo assigns. -/
def create_task (db : DB) (task_data : TaskCreate) (current_user : Identity)
    (new_id : String) (now : Nat) : DB × TaskDoc :=
  let doc : TaskDoc :=
    { _id := new_id, title := task_data.title,
      description := task_data.description, status := task_data.status,
      priority := task_data.priority, user_id := current_user.user_id,
      created_at := now, updated_at := now }
  ({ db with tasks := db.tasks ++ [doc] }, doc)

/-- `$set` of a `TaskUpdate` dumped with `exclude_unset=True`, plus the
always-refreshed `updated_at`. -/
def apply_task_update (upd : TaskUpdate) (now : Nat) (t : TaskDoc) : TaskDoc :=
  { t with
    title := upd.title.getD t.title,
    description := upd.description.getD t.description,
    status := upd.status.getD t.status,
    priority := upd.priority.getD t.priority,
    updated_at := now }

/-- `PUT /tasks/{task_id}`: validate the id, require an owned task to
exist, `$set` only the supplied fields (always refreshing `updated_at`
to `now`) on the first `_id` match, and re-fetch the updated document.
The unreachable failed re-fetch is a 500. -/
def update_task (db : DB) (current_user : Identity) (task_id : String)
    (task_data : TaskUpdate) (now : Nat) : Except Err (DB × TaskDoc) :=
  match validate_object_id task_id with
  | .error e => .error e
  | .ok obj_id =>
    match db.tasks.find? (fun t => t._id == obj_id
        && t.user_id == current_user.user_id) with
    | none => .error ⟨404, "Task not found"⟩
    | some _ =>
      let tasks' := updateFirst (fun t => t._id == obj_id)
        (apply_task_update task_data now) db.tasks
      match tasks'.find? (fun t => t._id == obj_id) with
      | none => .error ⟨500, "Internal Server Error"⟩
      | some updated => .ok ({ db with tasks := tasks' }, updated)

/-- `DELETE /tasks/{task_id}`: `delete_one` filtered on `_id` and the
caller's `user_id`; a zero deleted count is 404 "Task not found". -/
def delete_task (db : DB) (current_user : Identity) (task_id : String) :
    Except Err (DB × String) :=
  match validate_object_id task_id with
  | .error e => .error e
  | .ok obj_id =>
    let p := fun (t : TaskDoc) => t._id == obj_id
      && t.user_id == current_user.user_id
    match db.tasks.find? p with
    | none => .error ⟨404, "Task not found"⟩
    | some _ => .ok ({ db with tasks := eraseFirst p db.tasks },
        "Task deleted successfully")

/-- `GET /notes/{note_id}`: as `get_task`, on the `notes` collection. -/
def get_note (db : DB) (current_user : Identity) (note_id : String) :
    Except Err NoteDoc :=
  match validate_object_id note_id with
  | .error e => .error e
  | .ok obj_id =>
    match db.notes.find? (fun n => n._id == obj_id
        && n.user_id == current_user.user_id) with
    | none => .error ⟨404, "Note not found"⟩
    | some note => .ok note

/-- `POST /notes`. -/
def create_note (db : DB) (note_data : NoteCreate) (current_user : Identity)
    (new_id : String) (now : Nat) : DB × NoteDoc :=
  let doc : NoteDoc :=
    { _id := new_id, title := note_data.title, content := note_data.content,
      tags := note_data.tags, user_id := current_user.user_id,
      created_at := now, updated_at := now }
  ({ db with notes := db.notes ++ [doc] }, doc)

/-- `$set` of a `NoteUpdate` dumped with `exclude_unset=True`, plus the
always-refreshed `updated_at`. -/
def apply_note_update (upd : NoteUpdate) (now : Nat) (n : NoteDoc) : NoteDoc :=
  { n with
    title := upd.title.getD n.title,
    content := upd.content.getD n.content,
    tags := upd.tags.getD n.tags,
    updated_at := now }

/-- `PUT /notes/{note_id}`: as `update_task`, on the `notes`
collection. -/
def update_note (db : DB) (current_user : Identity) (note_id : String)
    (note_data : NoteUpdate) (now : Nat) : Except Err (DB × NoteDoc) :=
  match validate_object_id note_id with
  | .error e => .error e
  | .ok obj_id =>
    match db.notes.find? (fun n => n._id == obj_id
        && n.user_id == current_user.user_id) with
    | none => .error ⟨404, "Note not found"⟩
    | some _ =>
      let notes' := updateFirst (fun n => n._id == obj_id)
        (apply_note_update note_data now) db.notes
      match notes'.find? (fun n => n._id == obj_id) with
      | none => .error ⟨500, "Internal Server Error"⟩
      | some updated => .ok ({ db with notes := notes' }, updated)

/-- `DELETE /notes/{note_id}`. -/
def delete_note (db : DB) (current_user : Identity) (note_id : String) :
    Except Err (DB × String) :=
  match validate_object_id note_id with
  | .error e => .error e
  | .ok obj_id =>
    let p := fun (n : NoteDoc) => n._id == obj_id
      && n.user_id == current_user.user_id
    match db.notes.find? p with
    | none => .error ⟨404, "Note not found"⟩
    | some _ => .ok ({ db with notes := eraseFirst p db.notes },
        "Note deleted successfully")

/-- `GET /users` (admin only): the first check rejects non-admin callers
with 403, before any store access; otherwise list at most 100 users. -/
def get_users (db : DB) (current_user : Identity) :
    Except Err (List UserDoc) :=
  if current_user.role ≠ "admin" then .error ⟨403, "Not authorized"⟩
  else .ok (db.users.take 100)

/-- `DELETE /users/{user_id}` (admin only): 403 for non-admins, then id
validation, then the self-delete guard (a raw string compare against the
caller's resolved id), then `delete_one` on `users` filtered by the
parsed ObjectId (`obj_id`, case-insensitive in the hex supplied),
followed by `delete_many` of tasks and notes filtered on the RAW path
string `user_id` — the source uses the unparsed string there, so the two
filters disagree on non-canonical (e.g. uppercase-hex) ids. -/
def delete_user (db : DB) (current_user : Identity) (user_id : String) :
    Except Err (DB × String) :=
  if current_user.role ≠ "admin" then .error ⟨403, "Not authorized"⟩
  else
    match validate_object_id user_id with
    | .error e => .error e
    | .ok obj_id =>
      if current_user.user_id = user_id then
        .error ⟨400, "Cannot delete your own account"⟩
      else
        match db.users.find? (fun u => u._id == obj_id) with
        | none => .error ⟨404, "User not found"⟩
        | some _ =>
          .ok ({ db with
                 users := eraseFirst (fun u => u._id == obj_id) db.users,
                 tasks := db.tasks.filter (fun t => !(t.user_id == user_id)),
                 notes := db.notes.filter (fun n => !(n.user_id == user_id)) },
               "User deleted successfully")

/-- `PUT /profile`: reject a requested email already taken in the
caller's collection, `$set` the supplied fields on the caller's
document, and re-fetch by the (possibly new) email; a failed re-fetch
crashes the handler (500). -/
def update_profile (db : DB) (user_data : UserUpdate)
    (current_user : Identity) : Except Err (DB × UserResponse) :=
  let isAdmin := current_user.role = "admin"
  let coll := if isAdmin then db.admins else db.users
  let conflict : Bool := match user_data.email with
    | some e => e != current_user.email
        && (coll.find? (fun u => u.email == e)).isSome
    | none => false
  if conflict then .error ⟨400, "Email already registered"⟩
  else
    let upd := fun (u : UserDoc) =>
      { u with name := user_data.name.getD u.name,
               email := user_data.email.getD u.email }
    let coll' := updateFirst (fun (u : UserDoc) => u.email == current_user.email)
      upd coll
    let db' := if isAdmin then { db with admins := coll' }
               else { db with users := coll' }
    match coll'.find? (fun (u : UserDoc) =>
        u.email == user_data.email.getD current_user.email) with
    | none => .error ⟨500, "Internal Server Error"⟩
    | some u => .ok (db', { id := u._id, email := u.email, name := u.name,
                            role := u.role, created_at := u.created_at })

/-- `PUT /profile/password`: admins compare and store plaintext, regular
users verify and store a bcrypt hash (`salt` is the fresh salt for the
re-hash). -/
def change_password (db : DB) (old_password new_password : String)
    (current_user : Identity) (salt : Nat) : Except Err (DB × String) :=
  if current_user.role = "admin" then
    match db.admins.find? (fun u => u.email == current_user.email) with
    | none => .error ⟨400, "Current password is incorrect"⟩
    | some admin =>
      if admin.password ≠ old_password then
        .error ⟨400, "Current password is incorrect"⟩
      else
        let admins' := updateFirst
          (fun (u : UserDoc) => u.email == current_user.email)
          (fun u => { u with password := new_password }) db.admins
        .ok ({ db with admins := admins' }, "Password updated successfully")
  else
    match db.users.find? (fun u => u.email == current_user.email) with
    | none => .error ⟨400, "Current password is incorrect"⟩
    | some user =>
      if verify_password old_password user.password then
        let users' := updateFirst
          (fun (u : UserDoc) => u.email == current_user.email)
          (fun u => { u with password := hash_password salt new_password })
          db.users
        .ok ({ db with users := users' }, "Password updated successfully")
      else .error ⟨400, "Current password is incorrect"⟩

/-! Concrete fixtures used to exercise the handlers on closed inputs:
one admin, one regular user, and a task and a note owned by that user. -/

/-- ObjectId of the example admin. -/
def oidA : String := "aaaaaaaaaaaaaaaaaaaaaaaa"

/-- ObjectId of the example regular user. -/
def oidB : String := "bbbbbbbbbbbbbbbbbbbbbbbb"

/-- ObjectId of the example task. -/
def oidT : String := "cccccccccccccccccccccccc"

/-- ObjectId of the example note. -/
def oidN : String := "dddddddddddddddddddddddd"

/-- A well-formed ObjectId matching no stored document. -/
def oidF : String := "ffffffffffffffffffffffff"

/-- The example admin document (plaintext password, as the admins
collection stores them). -/
def adminDoc : UserDoc :=
  { _id := oidA, email := "admin@x.com", name := "Admin",
    password := "adminpass", role := "admin", created_at := 0 }

/-- The example regular user document. -/
def userDoc : UserDoc :=
  { _id := oidB, email := "b@x.com", name := "B",
    password := hash_password 1 "pw", role := "user", created_at := 0 }

/-- The example task, owned by `userDoc`. -/
def taskDoc : TaskDoc :=
  { _id := oidT, title := "T", description := "D", status := "todo",
    priority := "medium", user_id := oidB, created_at := 1, updated_at := 1 }

/-- The example note, owned by `userDoc`. -/
def noteDoc : NoteDoc :=
  { _id := oidN, title := "N", content := "C", tags := ["t"],
    user_id := oidB, created_at := 1, updated_at := 1 }

/-- The example database state. -/
def exDb : DB :=
  { users := [userDoc], admins := [adminDoc],
    tasks := [taskDoc], notes := [noteDoc] }

/-- The identity `get_current_user` resolves for the example admin. -/
def identA : Identity := ⟨"admin@x.com", "admin", oidA⟩

/-- The identity resolved for the example regular user. -/
def identB : Identity := ⟨"b@x.com", "user", oidB⟩

/-- An identity of a different regular user (owns nothing in `exDb`). -/
def identC : Identity := ⟨"c@x.com", "user", oidF⟩

/-! Helper lemmas about `List.find?`, `updateFirst` and the id/brand
checks, shared by the claim proofs. -/

/-- Strengthening a `find?` filter by a condition the found element
satisfies does not change the result. -/
theorem find?_first_and (p q : α → Bool) (l : List α) (a : α)
    (h : l.find? p = some a) (hq : q a = true) :
    l.find? (fun x => p x && q x) = some a := by
  induction l with
  | nil => simp at h
  | cons x xs ih =>
    by_cases hpx : p x = true
    · rw [List.find?_cons_of_pos _ hpx] at h
      cases h
      exact List.find?_cons_of_pos _ (by simp [hpx, hq])
    · rw [List.find?_cons_of_neg _ (by simpa using hpx)] at h
      rw [List.find?_cons_of_neg _ (by simp [hpx])]
      exact ih h

/-- `find?` after `updateFirst` on the same filter returns the image of
the previously found element, provided that image still matches. -/
theorem find?_updateFirst (p : α → Bool) (f : α → α) (l : List α) (a : α)
    (h : l.find? p = some a) (hf : p (f a) = true) :
    (updateFirst p f l).find? p = some (f a) := by
  induction l with
  | nil => simp at h
  | cons x xs ih =>
    by_cases hpx : p x = true
    · rw [List.find?_cons_of_pos _ hpx] at h
      cases h
      simp only [updateFirst, if_pos hpx]
      exact List.find?_cons_of_pos _ hf
    · rw [List.find?_cons_of_neg _ (by simpa using hpx)] at h
      simp only [updateFirst, if_neg hpx]
      rw [List.find?_cons_of_neg _ (by simpa using hpx)]
      exact ih h

/-- `updateFirst` never changes the collection's size. -/
theorem length_updateFirst (p : α → Bool) (f : α → α) (l : List α) :
    (updateFirst p f l).length = l.length := by
  induction l with
  | nil => rfl
  | cons x xs ih => by_cases hpx : p x = true <;> simp [updateFirst, hpx, ih]

/-- A `find?` that fails on the first list passes through an append. -/
theorem find?_append_none (p : α → Bool) {l₁ : List α} (l₂ : List α)
    (h : l₁.find? p = none) : (l₁ ++ l₂).find? p = l₂.find? p := by
  rw [List.find?_append, h, Option.none_or]

/-- A well-formed ObjectId string is neither empty nor the literal
`"undefined"`. -/
theorem isValidObjectId_ne {s : String} (h : isValidObjectId s = true) :
    s ≠ "" ∧ s ≠ "undefined" := by
  constructor <;> rintro rfl <;> revert h <;> decide

/-- `validate_object_id` accepts every well-formed ObjectId, returning
its canonical form. -/
theorem validate_object_id_ok {s : String} (h : isValidObjectId s = true) :
    validate_object_id s = .ok (normalizeHex s) := by
  obtain ⟨h1, h2⟩ := isValidObjectId_ne h
  simp [validate_object_id, h, h1, h2]

/-- If every task with the requested `_id` belongs to someone else, the
owner-filtered lookup finds nothing. -/
theorem find?_task_mismatch {l : List TaskDoc} {id uid : String}
    (h : ∀ t ∈ l, t._id = id → t.user_id ≠ uid) :
    l.find? (fun t => t._id == id && t.user_id == uid) = none := by
  rw [List.find?_eq_none]
  intro t ht
  simp only [Bool.and_eq_true, beq_iff_eq, not_and]
  exact fun h1 h2 => h t ht h1 h2

/-- If every note with the requested `_id` belongs to someone else, the
owner-filtered lookup finds nothing. -/
theorem find?_note_mismatch {l : List NoteDoc} {id uid : String}
    (h : ∀ n ∈ l, n._id = id → n.user_id ≠ uid) :
    l.find? (fun n => n._id == id && n.user_id == uid) = none := by
  rw [List.find?_eq_none]
  intro n hn
  simp only [Bool.and_eq_true, beq_iff_eq, not_and]
  exact fun h1 h2 => h n hn h1 h2

/-- A bcrypt hash is never the plaintext it hashes. -/
theorem hash_password_ne (salt : Nat) (p : String) :
    hash_password salt p ≠ p := by
  intro h
  have hlen := congrArg String.length h
  simp only [hash_password, String.length_append] at hlen
  have h7 : ("$2b$12$" : String).length = 7 := rfl
  have h1 : ("$" : String).length = 1 := rfl
  omega

/-- C1: for every authenticated caller and every task or note id such
that every stored record with that id (ObjectId comparison, i.e. on the
canonical form of the supplied hex) belongs to a different user — which
covers both a record owned by someone else and no record at all — the
fetch-by-id, update, and delete operations fail with 404
`ResourceNotFound` — never 403 — and with the same error value as when
no record with that id exists. -/
theorem C1_ownership_mismatch_is_not_found (db : DB) (caller : Identity)
    (tid nid : String) (upd : TaskUpdate) (nupd : NoteUpdate) (now : Nat)
    (htv : isValidObjectId tid = true) (hnv : isValidObjectId nid = true)
    (htm : ∀ t ∈ db.tasks, t._id = normalizeHex tid →
      t.user_id ≠ caller.user_id)
    (hnm : ∀ n ∈ db.notes, n._id = normalizeHex nid →
      n.user_id ≠ caller.user_id) :
    get_task db caller tid = .error ⟨404, "Task not found"⟩ ∧
    update_task db caller tid upd now = .error ⟨404, "Task not found"⟩ ∧
    delete_task db caller tid = .error ⟨404, "Task not found"⟩ ∧
    get_note db caller nid = .error ⟨404, "Note not found"⟩ ∧
    update_note db caller nid nupd now = .error ⟨404, "Note not found"⟩ ∧
    delete_note db caller nid = .error ⟨404, "Note not found"⟩ := by
  have ht := @find?_task_mismatch db.tasks (normalizeHex tid)
    caller.user_id htm
  have hn := @find?_note_mismatch db.notes (normalizeHex nid)
    caller.user_id hnm
  refine ⟨?_, ?_, ?_, ?_, ?_, ?_⟩ <;>
    simp [get_task, update_task, delete_task, get_note, update_note,
      delete_note, validate_object_id_ok htv, validate_object_id_ok hnv,
      ht, hn]

/-- C1 witness: in the example database, the task and note owned by user
`b` are 404 for a different authenticated user `c`. -/
theorem C1_witness :
    get_task exDb identC oidT = .error ⟨404, "Task not found"⟩ ∧
    delete_note exDb identC oidN = .error ⟨404, "Note not found"⟩ := by
  have h := C1_ownership_mismatch_is_not_found exDb identC oidT oidN {} {} 9
    (by decide) (by decide) (by decide) (by decide)
  exact ⟨h.1, h.2.2.2.2.2⟩

/-- C5: a malformed, empty, or placeholder path id fails with 400 before
any lookup (`"Invalid ID provided"` for empty/`"undefined"`,
`"Invalid ID format"` otherwise), while a well-formed id matching no
accessible task fails with 404 — two distinct failures. -/
theorem C5_id_validation_distinct_failures (db : DB) (caller : Identity)
    (id : String) :
    ((id = "" ∨ id = "undefined") →
      validate_object_id id = .error ⟨400, "Invalid ID provided"⟩ ∧
      get_task db caller id = .error ⟨400, "Invalid ID provided"⟩) ∧
    (¬(id = "" ∨ id = "undefined") → isValidObjectId id = false →
      validate_object_id id = .error ⟨400, "Invalid ID format"⟩ ∧
      get_task db caller id = .error ⟨400, "Invalid ID format"⟩) ∧
    (isValidObjectId id = true →
      db.tasks.find? (fun t => t._id == normalizeHex id
        && t.user_id == caller.user_id) = none →
      get_task db caller id = .error ⟨404, "Task not found"⟩ ∧
      (⟨404, "Task not found"⟩ : Err) ≠ ⟨400, "Invalid ID provided"⟩ ∧
      (⟨404, "Task not found"⟩ : Err) ≠ ⟨400, "Invalid ID format"⟩) := by
  refine ⟨fun h => ?_, fun h1 h2 => ?_, fun h1 h2 => ?_⟩
  · constructor <;> simp [validate_object_id, get_task, h]
  · constructor <;> simp [validate_object_id, get_task, h1, h2]
  · refine ⟨?_, by decide, by decide⟩
    simp [get_task, validate_object_id_ok h1, h2]

/-- C5 witness: the placeholder id, a malformed id, and a well-formed
absent id each produce their distinct failure on the example database. -/
theorem C5_witness :
    get_task exDb identB "undefined" = .error ⟨400, "Invalid ID provided"⟩ ∧
    get_task exDb identB "zz" = .error ⟨400, "Invalid ID format"⟩ ∧
    get_task exDb identB oidF = .error ⟨404, "Task not found"⟩ := by
  refine ⟨((C5_id_validation_distinct_failures exDb identB "undefined").1
      (Or.inr rfl)).2, ?_, ?_⟩
  · exact ((C5_id_validation_distinct_failures exDb identB "zz").2.1
      (by decide) (by decide)).2
  · exact ((C5_id_validation_distinct_failures exDb identB oidF).2.2
      (by decide) (by decide)).1

/-- C7: a caller whose resolved role is not `admin` gets 403
"Not authorized" from both `GET /users` and `DELETE /users/{id}`; the
role check is the handlers' first step, and the error result carries no
modified database state, so the stores are neither read nor mutated. -/
theorem C7_admin_only_endpoints (db : DB) (caller : Identity) (uid : String)
    (h : caller.role ≠ "admin") :
    get_users db caller = .error ⟨403, "Not authorized"⟩ ∧
    delete_user db caller uid = .error ⟨403, "Not authorized"⟩ := by
  constructor <;> simp [get_users, delete_user, h]

/-- C7 witness: the example regular user is rejected by both admin
endpoints. -/
theorem C7_witness :
    get_users exDb identB = .error ⟨403, "Not authorized"⟩ ∧
    delete_user exDb identB oidA = .error ⟨403, "Not authorized"⟩ :=
  C7_admin_only_endpoints exDb identB oidA (by decide)

/-- C8: an admin deleting their own resolved user id gets
400 "Cannot delete your own account", and the error means no record is
deleted. -/
theorem C8_no_self_delete (db : DB) (admin : Identity)
    (hrole : admin.role = "admin")
    (hv : isValidObjectId admin.user_id = true) :
    delete_user db admin admin.user_id =
      .error ⟨400, "Cannot delete your own account"⟩ := by
  simp [delete_user, hrole, validate_object_id_ok hv]

/-- C8 witness: the example admin cannot delete their own account. -/
theorem C8_witness :
    delete_user exDb identA oidA =
      .error ⟨400, "Cannot delete your own account"⟩ :=
  C8_no_self_delete exDb identA rfl (by decide)

/-- C2: identity resolution fails with 401 and never returns an
identity when the decoded payload lacks a truthy `email` or `role`
claim, or when the store selected by the payload's role has no account
with the payload's email (e.g. the user was deleted after the token was
issued). -/
theorem C2_stale_or_malformed_token_unauthenticated (db : DB)
    (p : TokenPayload) :
    (isTruthy p.email = false ∨ isTruthy p.role = false →
      get_current_user db (.payload p) =
        .error ⟨401, "Authentication failed"⟩) ∧
    (∀ e r, p.email = some e → p.role = some r → e ≠ "" → r ≠ "" →
      (if r = "admin" then db.admins else db.users).find?
        (fun u => u.email == e) = none →
      get_current_user db (.payload p) =
        .error ⟨401, "Authentication failed"⟩) := by
  constructor
  · intro h
    rcases h with h | h <;>
      simp [get_current_user, get_current_user_inner, decode_token, h]
  · intro e r he hr hne hnr hfind
    by_cases hra : r = "admin" <;>
      simp only [hra, if_pos, if_neg, reduceIte] at hfind <;>
      simp [get_current_user, get_current_user_inner, decode_token, he, hr,
        isTruthy, hne, hnr, hra, hfind]

/-- C2 witness: a payload missing its role claim, and a payload whose
account does not exist in the users store, both resolve to 401. -/
theorem C2_witness :
    get_current_user exDb (.payload ⟨some "b@x.com", none⟩) =
      .error ⟨401, "Authentication failed"⟩ ∧
    get_current_user exDb (.payload ⟨some "ghost@x.com", some "user"⟩) =
      .error ⟨401, "Authentication failed"⟩ :=
  ⟨(C2_stale_or_malformed_token_unauthenticated exDb
      ⟨some "b@x.com", none⟩).1 (Or.inr (by decide)),
   (C2_stale_or_malformed_token_unauthenticated exDb
      ⟨some "ghost@x.com", some "user"⟩).2 "ghost@x.com" "user" rfl rfl
      (by decide) (by decide) (by decide)⟩

/-- C3: updating an existing task owned by the caller with any subset of
fields leaves every unsupplied field — title, description, status,
priority — and the immutable `user_id` and `created_at` unchanged, and
sets `updated_at` to the current time, strictly later than its previous
value whenever the clock has advanced past it. -/
theorem C3_partial_update_frame (db : DB) (caller : Identity)
    (tid : String) (upd : TaskUpdate) (now : Nat) (t : TaskDoc)
    (hv : isValidObjectId tid = true)
    (hfind : db.tasks.find? (fun x => x._id == normalizeHex tid) = some t)
    (hown : t.user_id = caller.user_id) :
    ∃ db' r, update_task db caller tid upd now = .ok (db', r) ∧
      (upd.title = none → r.title = t.title) ∧
      (upd.description = none → r.description = t.description) ∧
      (upd.status = none → r.status = t.status) ∧
      (upd.priority = none → r.priority = t.priority) ∧
      r.user_id = t.user_id ∧ r.created_at = t.created_at ∧
      r.updated_at = now ∧
      (t.updated_at < now → t.updated_at < r.updated_at) := by
  have hpt := List.find?_some hfind
  have h2 : db.tasks.find? (fun x => x._id == normalizeHex tid
      && x.user_id == caller.user_id) = some t :=
    find?_first_and _ _ _ _ hfind (by simp [hown])
  have h3 : (updateFirst (fun x => x._id == normalizeHex tid)
      (apply_task_update upd now)
      db.tasks).find? (fun x => x._id == normalizeHex tid) =
      some (apply_task_update upd now t) :=
    find?_updateFirst _ _ _ _ hfind hpt
  refine ⟨{ db with tasks := updateFirst (fun x => x._id == normalizeHex tid) (apply_task_update upd now) db.tasks }, apply_task_update upd now t, ?_, ?_, ?_, ?_, ?_, rfl, rfl, rfl, fun h => h⟩
  · simp [update_task, validate_object_id_ok hv, h2, h3]
  all_goals intro h
  all_goals simp [apply_task_update, h]

/-- C3 witness: updating only the status of the example task keeps its
title, description and priority, and moves `updated_at` from 1 to 5. -/
theorem C3_witness :
    ∃ db' r, update_task exDb identB oidT { status := some "completed" } 5 =
        .ok (db', r) ∧
      r.title = taskDoc.title ∧ r.description = taskDoc.description ∧
      r.priority = taskDoc.priority ∧ r.updated_at = 5 ∧
      taskDoc.updated_at < r.updated_at := by
  obtain ⟨db', r, hok, ht, hd, _, hp, _, _, hu, hlt⟩ :=
    C3_partial_update_frame exDb identB oidT { status := some "completed" } 5
      taskDoc (by decide) (by decide) rfl
  exact ⟨db', r, hok, ht rfl, hd rfl, hp rfl, hu, hlt (by decide)⟩

/-- C4: the cascade claim fails on the code. `delete_one` on `users`
filters by the parsed ObjectId — case-insensitive in the supplied hex —
while the cascade `delete_many` on `tasks` and `notes` filters on the
RAW path string. At the uppercase form of an existing user's id the
delete succeeds and removes the user's document, yet the task and the
note owned by that user (stored under the canonical lowercase id)
both survive: the cascade removes nothing. -/
theorem C4_cascade_case_mismatch_bug :
    taskDoc.user_id = oidB ∧ noteDoc.user_id = oidB ∧
    normalizeHex "BBBBBBBBBBBBBBBBBBBBBBBB" = oidB ∧
    delete_user exDb identA "BBBBBBBBBBBBBBBBBBBBBBBB" =
      .ok ({ users := [], admins := [adminDoc], tasks := [taskDoc],
             notes := [noteDoc] }, "User deleted successfully") := by
  exact ⟨rfl, rfl, by decide, by decide⟩

/-- C6: a login with a wrong password for an existing account (user or
admin) and a login for an email found in neither store both fail with
the same error value: status 401, detail "Invalid credentials". -/
theorem C6_login_no_enumeration (db : DB) (l1 l2 : UserLogin) (u : UserDoc)
    (h1 : (db.users.find? (fun x => x.email == l1.email)).orElse
        (fun _ => db.admins.find? (fun x => x.email == l1.email)) = some u)
    (hwrong : if u.role = "admin" then l1.password ≠ u.password
              else verify_password l1.password u.password = false)
    (h2 : (db.users.find? (fun x => x.email == l2.email)).orElse
        (fun _ => db.admins.find? (fun x => x.email == l2.email)) = none) :
    login db l1 = .error ⟨401, "Invalid credentials"⟩ ∧
    login db l2 = .error ⟨401, "Invalid credentials"⟩ := by
  constructor
  · by_cases hra : u.role = "admin"
    · rw [if_pos hra] at hwrong
      simp [login, h1, hra, hwrong]
    · rw [if_neg hra] at hwrong
      simp [login, h1, hra, hwrong]
  · simp [login, h2]

/-- C6 witness: a wrong password for the example user and a login for an
unknown email produce the identical 401 response. -/
theorem C6_witness :
    login exDb ⟨"b@x.com", "wrong"⟩ = .error ⟨401, "Invalid credentials"⟩ ∧
    login exDb ⟨"ghost@x.com", "pw"⟩ =
      .error ⟨401, "Invalid credentials"⟩ :=
  C6_login_no_enumeration exDb ⟨"b@x.com", "wrong"⟩ ⟨"ghost@x.com", "pw"⟩
    userDoc (by decide) (by decide) (by decide)

/-- C9: with a fresh email, the first registration succeeds, its token
names the created account, a second registration for the same email
fails with 400 "Email already registered" (and, being an error, creates
nothing), and resolving the first registration's token yields exactly
the created account's email, role and user id. -/
theorem C9_register_roundtrip (db : DB) (u1 u2 : UserCreate)
    (id1 id2 : String) (s1 s2 n1 n2 : Nat)
    (hemail : u2.email = u1.email) (hne : u1.email ≠ "")
    (hfresh : db.users.find? (fun x => x.email == u1.email) = none) :
    ∃ db' tok, register db u1 id1 s1 n1 = .ok (db', tok) ∧
      register db' u2 id2 s2 n2 =
        .error ⟨400, "Email already registered"⟩ ∧
      tok.user = ⟨id1, u1.email, u1.name, "user", n1⟩ ∧
      get_current_user db' (.payload tok.access_token) =
        .ok ⟨u1.email, "user", id1⟩ := by
  have hfind1 : (db.users ++ [(⟨id1, u1.email, u1.name, hash_password s1 u1.password, "user", n1⟩ : UserDoc)]).find? (fun x => x.email == u1.email) = some ⟨id1, u1.email, u1.name, hash_password s1 u1.password, "user", n1⟩ := by
    rw [find?_append_none _ _ hfresh]
    exact List.find?_cons_of_pos _ (by simp)
  refine ⟨{ db with users := db.users ++ [⟨id1, u1.email, u1.name, hash_password s1 u1.password, "user", n1⟩] }, ⟨⟨some u1.email, some "user"⟩, "bearer", ⟨id1, u1.email, u1.name, "user", n1⟩⟩, ?_, ?_, rfl, ?_⟩
  · simp [register, hfresh]
  · rw [register, hemail]
    simp only [hfind1]
  · simp [get_current_user, get_current_user_inner, decode_token, isTruthy,
      hne, hfind1]

/-- C9 witness: registering `c@x.com` in the example database succeeds,
a duplicate registration fails, and the returned token resolves back to
the new account. -/
theorem C9_witness :
    ∃ db' tok, register exDb ⟨"c@x.com", "pw2", "C"⟩ oidF 2 3 =
        .ok (db', tok) ∧
      register db' ⟨"c@x.com", "other", "C2"⟩ oidA 4 6 =
        .error ⟨400, "Email already registered"⟩ ∧
      tok.user = ⟨oidF, "c@x.com", "C", "user", 3⟩ ∧
      get_current_user db' (.payload tok.access_token) =
        .ok ⟨"c@x.com", "user", oidF⟩ :=
  C9_register_roundtrip exDb ⟨"c@x.com", "pw2", "C"⟩
    ⟨"c@x.com", "other", "C2"⟩ oidF oidA 2 4 3 6 rfl (by decide) (by decide)

/-- `validate_object_id` only ever returns the canonical form of the id
it was given. -/
theorem validate_object_id_inv {s r : String}
    (h : validate_object_id s = .ok r) : r = normalizeHex s := by
  unfold validate_object_id at h
  split at h
  · simp at h
  · split at h
    · injection h with h'
      exact h'.symm
    · simp at h

/-- Inverting a successful `delete_user`: the `admins` collection is
untouched and the `users` collection only loses the document matching
the parsed (canonical) id. -/
theorem delete_user_effect (db : DB) (c : Identity) (uid : String)
    (db' : DB) (m : String) (h : delete_user db c uid = .ok (db', m)) :
    db'.admins = db.admins ∧
    db'.users = eraseFirst (fun x => x._id == normalizeHex uid) db.users := by
  unfold delete_user at h
  split at h
  · simp at h
  cases hval : validate_object_id uid with
  | error e => rw [hval] at h; simp at h
  | ok r =>
    rw [hval] at h
    have hr := validate_object_id_inv hval
    subst hr
    simp only [] at h
    split at h
    · simp at h
    split at h
    · simp at h
    injection h with h'
    injection h' with hdb hm
    subst hdb
    exact ⟨rfl, rfl⟩

/-- Inverting a successful `update_task`: only `tasks` changes. -/
theorem update_task_admins (db : DB) (c : Identity) (tid : String)
    (tu : TaskUpdate) (now : Nat) (db' : DB) (r : TaskDoc)
    (h : update_task db c tid tu now = .ok (db', r)) :
    db'.admins = db.admins ∧ db'.users = db.users := by
  simp only [update_task] at h
  split at h
  · simp at h
  split at h
  · simp at h
  split at h
  · simp at h
  injection h with h'
  injection h' with hdb hr
  subst hdb
  exact ⟨rfl, rfl⟩

/-- Inverting a successful `delete_task`: only `tasks` changes. -/
theorem delete_task_admins (db : DB) (c : Identity) (tid : String)
    (db' : DB) (m : String) (h : delete_task db c tid = .ok (db', m)) :
    db'.admins = db.admins ∧ db'.users = db.users := by
  simp only [delete_task] at h
  split at h
  · simp at h
  split at h
  · simp at h
  injection h with h'
  injection h' with hdb hm
  subst hdb
  exact ⟨rfl, rfl⟩

/-- Inverting a successful `update_note`: only `notes` changes. -/
theorem update_note_admins (db : DB) (c : Identity) (nid : String)
    (nu : NoteUpdate) (now : Nat) (db' : DB) (r : NoteDoc)
    (h : update_note db c nid nu now = .ok (db', r)) :
    db'.admins = db.admins ∧ db'.users = db.users := by
  simp only [update_note] at h
  split at h
  · simp at h
  split at h
  · simp at h
  split at h
  · simp at h
  injection h with h'
  injection h' with hdb hr
  subst hdb
  exact ⟨rfl, rfl⟩

/-- Inverting a successful `delete_note`: only `notes` changes. -/
theorem delete_note_admins (db : DB) (c : Identity) (nid : String)
    (db' : DB) (m : String) (h : delete_note db c nid = .ok (db', m)) :
    db'.admins = db.admins ∧ db'.users = db.users := by
  simp only [delete_note] at h
  split at h
  · simp at h
  split at h
  · simp at h
  injection h with h'
  injection h' with hdb hm
  subst hdb
  exact ⟨rfl, rfl⟩

/-- Inverting a successful `update_profile`: both account collections
keep their sizes — existing documents are edited, none created. -/
theorem update_profile_lengths (db : DB) (pd : UserUpdate) (c : Identity)
    (db' : DB) (r : UserResponse) (h : update_profile db pd c = .ok (db', r)) :
    db'.admins.length = db.admins.length ∧
    db'.users.length = db.users.length := by
  simp only [update_profile] at h
  repeat' split at h
  all_goals try simp only [reduceCtorEq] at h
  all_goals injection h with h'
  all_goals injection h' with hdb hr
  all_goals subst hdb
  all_goals simp [length_updateFirst]

/-- Inverting a successful `change_password`: both account collections
keep their sizes. -/
theorem change_password_lengths (db : DB) (op np : String) (c : Identity)
    (salt : Nat) (db' : DB) (m : String)
    (h : change_password db op np c salt = .ok (db', m)) :
    db'.admins.length = db.admins.length ∧
    db'.users.length = db.users.length := by
  unfold change_password at h
  split at h
  · split at h
    · simp at h
    split at h
    · simp at h
    injection h with h'
    injection h' with hdb hm
    subst hdb
    simp [length_updateFirst]
  · split at h
    · simp at h
    split at h
    · injection h with h'
      injection h' with hdb hm
      subst hdb
      simp [length_updateFirst]
    · simp at h

/-- C10: registration stores the new account in `users` with role
exactly `"user"` and a hashed (never plaintext) password, leaving
`admins` unchanged; `delete_user` removes documents only from `users`
and leaves `admins` unchanged; and no other state-changing endpoint
(task/note create, update, delete; profile update; password change)
ever adds an account to the `admins` collection — each leaves it
unchanged or merely edits documents in place, preserving its size. -/
theorem C10_account_store_invariants (db : DB) (u : UserCreate)
    (new_id : String) (salt now : Nat) (caller : Identity)
    (uid tid nid : String) (tc : TaskCreate) (nc : NoteCreate)
    (tu : TaskUpdate) (nu : NoteUpdate) (pd : UserUpdate)
    (op np : String) (salt2 : Nat)
    (hfresh : db.users.find? (fun x => x.email == u.email) = none) :
    (∃ db' tok, register db u new_id salt now = .ok (db', tok) ∧
      db'.users = db.users ++ [⟨new_id, u.email, u.name, hash_password salt u.password, "user", now⟩] ∧
      hash_password salt u.password ≠ u.password ∧
      db'.admins = db.admins) ∧
    (∀ db' m, delete_user db caller uid = .ok (db', m) →
      db'.admins = db.admins ∧
      db'.users = eraseFirst (fun x => x._id == normalizeHex uid) db.users) ∧
    ((create_task db tc caller tid now).1.admins = db.admins ∧
     (create_task db tc caller tid now).1.users = db.users ∧
     (create_note db nc caller nid now).1.admins = db.admins ∧
     (create_note db nc caller nid now).1.users = db.users) ∧
    (∀ db' r, update_task db caller tid tu now = .ok (db', r) →
      db'.admins = db.admins ∧ db'.users = db.users) ∧
    (∀ db' m, delete_task db caller tid = .ok (db', m) →
      db'.admins = db.admins ∧ db'.users = db.users) ∧
    (∀ db' r, update_note db caller nid nu now = .ok (db', r) →
      db'.admins = db.admins ∧ db'.users = db.users) ∧
    (∀ db' m, delete_note db caller nid = .ok (db', m) →
      db'.admins = db.admins ∧ db'.users = db.users) ∧
    (∀ db' r, update_profile db pd caller = .ok (db', r) →
      db'.admins.length = db.admins.length ∧
      db'.users.length = db.users.length) ∧
    (∀ db' m, change_password db op np caller salt2 = .ok (db', m) →
      db'.admins.length = db.admins.length ∧
      db'.users.length = db.users.length) := by
  refine ⟨?_, fun db' m h => delete_user_effect _ _ _ _ _ h,
    ⟨rfl, rfl, rfl, rfl⟩,
    fun db' r h => update_task_admins _ _ _ _ _ _ _ h,
    fun db' m h => delete_task_admins _ _ _ _ _ h,
    fun db' r h => update_note_admins _ _ _ _ _ _ _ h,
    fun db' m h => delete_note_admins _ _ _ _ _ h,
    fun db' r h => update_profile_lengths _ _ _ _ _ h,
    fun db' m h => change_password_lengths _ _ _ _ _ _ _ h⟩
  refine ⟨{ db with users := db.users ++ [⟨new_id, u.email, u.name, hash_password salt u.password, "user", now⟩] }, ⟨⟨some u.email, some "user"⟩, "bearer", ⟨new_id, u.email, u.name, "user", now⟩⟩, ?_, rfl, hash_password_ne salt u.password, rfl⟩
  simp [register, hfresh]

/-- C10 witness: registering a fresh account in the example database
appends exactly one hashed-password user document and leaves the admins
store untouched, and deleting the example user only shrinks `users`. -/
theorem C10_witness :
    (∃ db' tok, register exDb ⟨"c@x.com", "pw3", "C"⟩ oidF 7 5 =
        .ok (db', tok) ∧
      db'.users = exDb.users ++
        [⟨oidF, "c@x.com", "C", hash_password 7 "pw3", "user", 5⟩] ∧
      hash_password 7 "pw3" ≠ "pw3" ∧
      db'.admins = exDb.admins) ∧
    (∀ db' m, delete_user exDb identA oidB = .ok (db', m) →
      db'.admins = exDb.admins ∧
      db'.users = eraseFirst (fun x => x._id == normalizeHex oidB) exDb.users) := by
  have h := C10_account_store_invariants exDb ⟨"c@x.com", "pw3", "C"⟩ oidF 7 5
    identA oidB oidT oidN { title := "T2", description := "D2" }
    { title := "N2", content := "C2" } {} {} {} "adminpass" "new" 9
    (by decide)
  exact ⟨h.1, h.2.1⟩

end RBAC
